import Mathlib

/-!
Verification of the write-path core shared by the two microservices of this
repository (`src/docker/transaction-api/main.py` and
`src/docker/notification-service/main.py`): creation handlers, the read-back
path, the mark-as-read transition, the health probe and the cross-service
notifier.  External effects (database commit, cache writes, the outbound
HTTP POST) are modelled by explicit outcome flags in an environment record;
the database is a list of rows, the cache an association list.  Python's
`str`/`eval` round-trip of the metadata dict is modelled by an executable
encoder (`reprV`, mirroring `repr` of a dict built from JSON data) and an
executable reader (`parseV`, the behaviour of `eval` on such literals).
-/

/-! ### Characters that are awkward to write as literals -/

/-- The single-quote character `'` used by Python `repr` as default string quote. -/
def sqChar : Char := Char.ofNat 39

/-- The double-quote character. -/
def dqChar : Char := Char.ofNat 34

/-- The backslash escape character. -/
def bsChar : Char := Char.ofNat 92

/-- Newline. -/
def nlChar : Char := Char.ofNat 10

/-- Carriage return. -/
def crChar : Char := Char.ofNat 13

/-- Horizontal tab. -/
def tbChar : Char := Char.ofNat 9

/-- Opening curly brace, the first character of a Python dict literal. -/
def lbChar : Char := Char.ofNat 123

/-- Closing curly brace, the last character of a Python dict literal. -/
def rbChar : Char := Char.ofNat 125

/-! ### Decimal digits -/

/-- Is `c` an ASCII decimal digit? -/
def isDig (c : Char) : Bool := 48 ≤ c.toNat && c.toNat ≤ 57

/-- Numeric value of an ASCII digit. -/
def digVal (c : Char) : Nat := c.toNat - 48

/-- The ASCII digit for `d < 10`. -/
def decDigit (d : Nat) : Char := Char.ofNat (48 + d)

/-- Greedily read a decimal number, extending accumulator `acc`;
models how `eval` reads an integer literal. -/
def parseDigits : Nat → List Char → Nat × List Char
  | acc, [] => (acc, [])
  | acc, c :: cs => if isDig c then parseDigits (acc * 10 + digVal c) cs else (acc, c :: cs)

/-- Fuelled decimal rendering of a natural number (most significant digit first). -/
def toDecCore : Nat → Nat → List Char
  | 0, _ => []
  | fuel + 1, n =>
    if n < 10 then [decDigit n] else toDecCore fuel (n / 10) ++ [decDigit (n % 10)]

/-- Decimal rendering of a natural number, as Python `repr` prints it. -/
def toDec (n : Nat) : List Char := toDecCore (n + 1) n

/-- Python `repr` of an integer: decimal digits, with a leading minus when negative. -/
def reprInt (n : Int) : List Char :=
  if n < 0 then '-' :: toDec (-n).toNat else toDec n.toNat

/-! ### Python string literals: `repr` escaping and its reader -/

/-- Escape one character of a Python string literal quoted with `q`.
Backslash, the quote character, newline, carriage return and tab are
escaped; every other character is kept verbatim (CPython additionally
hex-escapes unprintable characters, an alternative spelling that decodes
to the same character and so does not affect the round-trip property). -/
def escChar (q c : Char) : List Char :=
  if c = bsChar then [bsChar, bsChar]
  else if c = q then [bsChar, q]
  else if c = nlChar then [bsChar, 'n']
  else if c = crChar then [bsChar, 'r']
  else if c = tbChar then [bsChar, 't']
  else [c]

/-- Escape a whole string body for quote character `q`. -/
def escapeStr (q : Char) : List Char → List Char
  | [] => []
  | c :: cs => escChar q c ++ escapeStr q cs

/-- Quote character chosen by Python `repr` for a string: single quote,
unless the string contains a single quote and no double quote. -/
def pyQuoteChar (cs : List Char) : Char :=
  if cs.contains sqChar && !(cs.contains dqChar) then dqChar else sqChar

/-- Python `repr` of a string: chosen quote, escaped body, closing quote. -/
def reprStrChars (cs : List Char) : List Char :=
  let q := pyQuoteChar cs
  q :: (escapeStr q cs ++ [q])

/-- Decode one escape character after a backslash. -/
def unescChar (e : Char) : Option Char :=
  if e = bsChar then some bsChar
  else if e = sqChar then some sqChar
  else if e = dqChar then some dqChar
  else if e = 'n' then some nlChar
  else if e = 'r' then some crChar
  else if e = 't' then some tbChar
  else none

/-- Read a string-literal body quoted with `q` up to the closing quote;
models how `eval` reads a string literal. -/
def parseStrBody (q : Char) : List Char → Option (List Char × List Char)
  | [] => none
  | c :: cs =>
    if c = q then some ([], cs)
    else if c = bsChar then
      match cs with
      | [] => none
      | e :: cs' =>
        match unescChar e with
        | none => none
        | some r =>
          match parseStrBody q cs' with
          | none => none
          | some (s, rest) => some (r :: s, rest)
    else
      match parseStrBody q cs with
      | none => none
      | some (s, rest) => some (c :: s, rest)

/-! ### JSON-like values, as Python holds the request metadata dict -/

/-- A structured metadata value as it arrives from a JSON request body:
`None`, booleans, integers, strings, lists and string-keyed dicts
(numeric JSON values are modelled by their integer case). -/
inductive Value where
  | vNone : Value
  | vBool : Bool → Value
  | vInt : Int → Value
  | vStr : String → Value
  | vList : List Value → Value
  | vDict : List (String × Value) → Value

mutual
/-- Python `repr`/`str` of a value (`str` and `repr` agree on containers). -/
def reprV : Value → List Char
  | .vNone => ['N', 'o', 'n', 'e']
  | .vBool true => ['T', 'r', 'u', 'e']
  | .vBool false => ['F', 'a', 'l', 's', 'e']
  | .vInt n => reprInt n
  | .vStr s => reprStrChars s.data
  | .vList xs => '[' :: (reprElems xs ++ [']'])
  | .vDict kvs => lbChar :: (reprEntries kvs ++ [rbChar])

/-- Comma-space separated rendering of list elements. -/
def reprElems : List Value → List Char
  | [] => []
  | [v] => reprV v
  | v :: vs => reprV v ++ ',' :: ' ' :: reprElems vs

/-- Comma-space separated rendering of `key: value` dict entries. -/
def reprEntries : List (String × Value) → List Char
  | [] => []
  | [(k, v)] => reprStrChars k.data ++ ':' :: ' ' :: reprV v
  | (k, v) :: kvs => reprStrChars k.data ++ ':' :: ' ' :: reprV v ++ ',' :: ' ' :: reprEntries kvs
end

/-- Match a literal prefix, returning the remainder. -/
def stripPfx : List Char → List Char → Option (List Char)
  | [], cs => some cs
  | _ :: _, [] => none
  | p :: ps, c :: cs => if c = p then stripPfx ps cs else none

mutual
/-- Fuelled reader for one value; models the behaviour of Python `eval`
on the literals `repr` produces. -/
def parseV : Nat → List Char → Option (Value × List Char)
  | 0, _ => none
  | _ + 1, [] => none
  | fuel + 1, c :: cs' =>
    if c = 'N' then
      match stripPfx ['o', 'n', 'e'] cs' with
      | some rest => some (.vNone, rest)
      | none => none
    else if c = 'T' then
      match stripPfx ['r', 'u', 'e'] cs' with
      | some rest => some (.vBool true, rest)
      | none => none
    else if c = 'F' then
      match stripPfx ['a', 'l', 's', 'e'] cs' with
      | some rest => some (.vBool false, rest)
      | none => none
    else if c = '-' then
      match cs' with
      | [] => none
      | d :: _ =>
        if isDig d then
          let p := parseDigits 0 cs'
          some (.vInt (-(p.1 : Int)), p.2)
        else none
    else if isDig c then
      let p := parseDigits 0 (c :: cs')
      some (.vInt (p.1 : Int), p.2)
    else if c = sqChar ∨ c = dqChar then
      match parseStrBody c cs' with
      | none => none
      | some (s, rest) => some (.vStr (String.mk s), rest)
    else if c = '[' then
      match parseElems fuel cs' with
      | none => none
      | some (xs, rest) => some (.vList xs, rest)
    else if c = lbChar then
      match parseEntries fuel cs' with
      | none => none
      | some (kvs, rest) => some (.vDict kvs, rest)
    else none

/-- Fuelled reader for the elements of a list literal after the `[`. -/
def parseElems : Nat → List Char → Option (List Value × List Char)
  | 0, _ => none
  | _ + 1, [] => none
  | fuel + 1, c :: cs' =>
    if c = ']' then some ([], cs')
    else
      match parseV fuel (c :: cs') with
      | none => none
      | some (v, cs1) =>
        match cs1 with
        | [] => none
        | c1 :: cs2 =>
          if c1 = ']' then some ([v], cs2)
          else if c1 = ',' then
            match cs2 with
            | ' ' :: cs3 =>
              match parseElems fuel cs3 with
              | none => none
              | some (vs, rest) => some (v :: vs, rest)
            | _ => none
          else none

/-- Fuelled reader for the entries of a dict literal after the opening brace. -/
def parseEntries : Nat → List Char → Option (List (String × Value) × List Char)
  | 0, _ => none
  | _ + 1, [] => none
  | fuel + 1, c :: cs' =>
    if c = rbChar then some ([], cs')
    else if c = sqChar ∨ c = dqChar then
      match parseStrBody c cs' with
      | none => none
      | some (k, cs1) =>
        match cs1 with
        | ':' :: ' ' :: cs2 =>
          match parseV fuel cs2 with
          | none => none
          | some (v, cs3) =>
            match cs3 with
            | [] => none
            | c3 :: cs4 =>
              if c3 = rbChar then some ([(String.mk k, v)], cs4)
              else if c3 = ',' then
                match cs4 with
                | ' ' :: cs5 =>
                  match parseEntries fuel cs5 with
                  | none => none
                  | some (kvs, rest) => some ((String.mk k, v) :: kvs, rest)
                | _ => none
              else none
        | _ => none
    else none
end

/-- Python `str` of a metadata dict, as the transaction service stores it. -/
def pyReprDict (kvs : List (String × Value)) : String :=
  String.mk (reprV (.vDict kvs))

/-- Python `eval` of a stored text, expected to yield a value; `none` models
`eval` raising (which the handler's generic `except` turns into a 500). -/
def pyEvalValue (s : String) : Option Value :=
  match parseV (2 * s.data.length + 2) s.data with
  | some (v, []) => some v
  | _ => none

/-- Python `eval` of a stored text, expected to yield a dict. -/
def pyEvalDict (s : String) : Option (List (String × Value)) :=
  match pyEvalValue s with
  | some (.vDict kvs) => some kvs
  | _ => none

/-- Does the input not start with a digit?  Guard for the greedy number reader. -/
def noDigitHead : List Char → Bool
  | [] => true
  | c :: _ => !(isDig c)

/-! ### Cache model (Redis): an association list of string keys and values.
`setex`'s TTL only bounds lifetime and is not otherwise observable here. -/

/-- `setex`: store a value under a key, replacing any previous entry. -/
def setKey (c : List (String × String)) (k v : String) : List (String × String) :=
  (k, v) :: c.filter (fun p => !(p.1 == k))

/-- `delete` (and `expire key 0`): drop a key. -/
def delKey (c : List (String × String)) (k : String) : List (String × String) :=
  c.filter (fun p => !(p.1 == k))

/-- `get`: read a key. -/
def lookupKey (c : List (String × String)) (k : String) : Option String :=
  (c.find? (fun p => p.1 == k)).map (fun p => p.2)

/-! ### Shared write-path outcome -/

/-- Client-visible outcome of a creation request: 201 with the created row,
pydantic validation failure (422), or the generic exception handler's 500. -/
inductive WriteOutcome (ρ : Type) (ε : Type) where
  | created : ρ → WriteOutcome ρ ε
  | validationError : ε → WriteOutcome ρ ε
  | serverError : WriteOutcome ρ ε

/-- HTTP status code of a creation outcome: the endpoint decorators use
`status.HTTP_201_CREATED`, FastAPI renders pydantic failures as 422, and the
generic handler raises `HTTP_500_INTERNAL_SERVER_ERROR`. -/
def WriteOutcome.statusCode {ρ ε : Type} : WriteOutcome ρ ε → Nat
  | .created _ => 201
  | .validationError _ => 422
  | .serverError => 500

/-- Field-level validation failures raised by the pydantic models. -/
inductive VError where
  | invalidAmount : VError
  | invalidCurrency : VError
  | invalidType : VError
  | invalidPriority : VError
  | titleTooLong : VError

/-! ### Transaction service (`src/docker/transaction-api/main.py`) -/

/-- Python `str.upper` on one character, for the ASCII range the 3-letter
currency codes use. -/
def pyUpperChar (c : Char) : Char :=
  if 'a' ≤ c ∧ c ≤ 'z' then Char.ofNat (c.toNat - 32) else c

/-- Python `str.upper`, as `validate_currency` applies it. -/
def pyUpper (s : String) : String := String.mk (s.data.map pyUpperChar)

/-- The `TransactionCreate` request model (monetary amounts modelled over ℚ). -/
structure TransactionCreate where
  user_id : String
  amount : ℚ
  currency : String
  transaction_type : String
  description : Option String
  metadata : Option (List (String × Value))

/-- `allowed_types` of `validate_transaction_type`. -/
def txAllowedTypes : List String := ["credit", "debit", "transfer"]

/-- Pydantic validation of `TransactionCreate`, in the model's field order:
`amount` strictly positive (`gt=0`), `currency` exactly 3 characters and then
upper-cased (`validate_currency`), `transaction_type` in the fixed
enumeration (`validate_transaction_type`).  Any failure aborts the request
with a client error before the handler body runs. -/
def validateTransactionCreate (r : TransactionCreate) : Except VError TransactionCreate :=
  if ¬ (0 < r.amount) then .error .invalidAmount
  else if r.currency.length ≠ 3 then .error .invalidCurrency
  else if ¬ (r.transaction_type ∈ txAllowedTypes) then .error .invalidType
  else .ok { r with currency := pyUpper r.currency }

/-- A row of the `transactions` table (store-internal id and the
column-default timestamps are not load-bearing for any claim and omitted). -/
structure TransactionRec where
  transaction_id : String
  user_id : String
  amount : ℚ
  currency : String
  transaction_type : String
  status : String
  description : Option String
  metadata : Option String
  is_active : Bool

/-- Text persisted in the metadata column:
`str(transaction.metadata) if transaction.metadata else None`;
Python truthiness maps both `None` and an empty dict to `NULL`. -/
def encodeTxMeta : Option (List (String × Value)) → Option String
  | none => none
  | some kvs => if kvs.isEmpty then none else some (pyReprDict kvs)

/-- The `TransactionDB` row built by `create_transaction` before the insert. -/
def mkTransactionRecord (newId : String) (v : TransactionCreate) : TransactionRec :=
  { transaction_id := newId
    user_id := v.user_id
    amount := v.amount
    currency := v.currency
    transaction_type := v.transaction_type
    status := "pending"
    description := v.description
    metadata := encodeTxMeta v.metadata
    is_active := true }

/-- Cached text of a created transaction; abstracts
`str(db_transaction.__dict__)`, whose content no read path ever
deserializes (the cache hit in `get_transaction` is logged and ignored). -/
def cacheTextTx (r : TransactionRec) : String := r.transaction_id

/-- Store rows, cache entries and the two Prometheus counters the
transaction write path touches. -/
structure TxState where
  store : List TransactionRec
  cache : List (String × String)
  created : Nat
  errors : Nat

/-- Outcomes of the external effects of one transaction-creation request:
the generated business id, whether the database commit succeeds, and
whether the cache `setex` succeeds. -/
structure TxEnv where
  newId : String
  dbOk : Bool
  cacheOk : Bool

/-- The dict handed to `background_tasks.add_task(send_notification, ...)`. -/
structure TxSummary where
  transaction_id : String
  user_id : String
  amount : ℚ
  currency : String
  transaction_type : String

/-- Summary dict built by `create_transaction` for the background notifier. -/
def mkTxSummary (newId : String) (v : TransactionCreate) : TxSummary :=
  { transaction_id := newId
    user_id := v.user_id
    amount := v.amount
    currency := v.currency
    transaction_type := v.transaction_type }

/-- Result of one `POST /transactions` request: the response, the state of
store/cache/counters afterwards, and the scheduled background tasks. -/
structure TxResult where
  response : WriteOutcome TransactionRec VError
  state : TxState
  tasks : List TxSummary

/-- `POST /transactions` (`create_transaction`): pydantic validation, id
generation, durable insert with status "pending", cache `setex` with a
1-hour TTL, counter/histogram updates, scheduling of the background
notification, and the 201 response; any exception after validation is
caught by the generic handler, which increments the error counter and
returns a 500. -/
def create_transaction (env : TxEnv) (st : TxState) (req : TransactionCreate) : TxResult :=
  match validateTransactionCreate req with
  | .error e => { response := .validationError e, state := st, tasks := [] }
  | .ok v =>
    let row := mkTransactionRecord env.newId v
    if env.dbOk then
      let st1 : TxState := { st with store := st.store ++ [row] }
      if env.cacheOk then
        { response := .created row
          state := { st1 with
            cache := setKey st1.cache ("transaction:" ++ env.newId) (cacheTextTx row)
            created := st1.created + 1 }
          tasks := [mkTxSummary env.newId v] }
      else
        { response := .serverError
          state := { st1 with errors := st1.errors + 1 }
          tasks := [] }
    else
      { response := .serverError
        state := { st with errors := st.errors + 1 }
        tasks := [] }

/-- Response shape of the transaction read path, metadata decoded back into
its structured form. -/
structure TransactionView where
  transaction_id : String
  user_id : String
  amount : ℚ
  currency : String
  transaction_type : String
  status : String
  description : Option String
  metadata : Option (List (String × Value))

/-- Outcome of the read-by-id endpoint: 200 with the row, 404, or the
generic 500. -/
inductive GetOutcome where
  | found : TransactionView → GetOutcome
  | notFound : GetOutcome
  | serverError : GetOutcome

/-- Metadata carried by a successful read, `none` otherwise. -/
def getOutcomeMeta : GetOutcome → Option (Option (List (String × Value)))
  | .found w => some w.metadata
  | _ => none

/-- `GET /transactions/...` (`get_transaction`): reads the first active row
with the business id; the cached text is fetched but never deserialized, so
the response always comes from the store; the metadata column is decoded
with `eval(...) if transaction_data.metadata else None`, and an `eval`
failure lands in the generic 500 handler. -/
def get_transaction (st : TxState) (tid : String) : GetOutcome :=
  match st.store.find? (fun r => r.transaction_id == tid && r.is_active) with
  | none => .notFound
  | some r =>
    match r.metadata with
    | none =>
      .found { transaction_id := r.transaction_id, user_id := r.user_id, amount := r.amount,
               currency := r.currency, transaction_type := r.transaction_type,
               status := r.status, description := r.description, metadata := none }
    | some s =>
      if s.data.isEmpty then
        .found { transaction_id := r.transaction_id, user_id := r.user_id, amount := r.amount,
                 currency := r.currency, transaction_type := r.transaction_type,
                 status := r.status, description := r.description, metadata := none }
      else
        match pyEvalDict s with
        | some kvs =>
          .found { transaction_id := r.transaction_id, user_id := r.user_id, amount := r.amount,
                   currency := r.currency, transaction_type := r.transaction_type,
                   status := r.status, description := r.description, metadata := some kvs }
        | none => .serverError

/-! ### Cross-service notifier (`send_notification` in the transaction service) -/

/-- Outcome of the outbound HTTP POST: a response with some status code, or
a raised network error (timeout, refused connection, ...). -/
inductive PostOutcome where
  | response : Nat → PostOutcome
  | networkFailure : PostOutcome

/-- What the notifier logs about its POST. -/
inductive SendLog where
  | sentOk : SendLog
  | sendFailed : Nat → SendLog
  | sendError : SendLog

/-- The JSON body `send_notification` posts to the notification endpoint:
fixed type "transaction_created", templated title/message, and the whole
transaction summary dict as metadata. -/
structure NotifyPayload where
  user_id : String
  type : String
  title : String
  message : String
  metadata : TxSummary

/-- The `notification_payload` dict built inside `send_notification`. -/
def buildNotificationPayload (t : TxSummary) : NotifyPayload :=
  { user_id := t.user_id
    type := "transaction_created"
    title := "Nova Transação"
    message := "Transação de " ++ toString t.amount ++ " " ++ t.currency ++ " foi criada"
    metadata := t }

/-- `send_notification`: builds the payload, POSTs it with a 10-second
timeout, logs success only when the response status equals 200, logs
"Falha ao enviar notificação" on any other status, and logs an error when
the request raises; nothing is retried or propagated. -/
def send_notification (t : TxSummary) (o : PostOutcome) : NotifyPayload × SendLog :=
  (buildNotificationPayload t,
   match o with
   | .response c => if c = 200 then .sentOk else .sendFailed c
   | .networkFailure => .sendError)

/-- One full transaction-creation round: the handler runs to completion and
its response is fixed before the detached background POST executes with
outcome `o`. -/
def runCreateThenNotify (env : TxEnv) (st : TxState) (req : TransactionCreate)
    (o : PostOutcome) : TxResult × List (NotifyPayload × SendLog) :=
  let r := create_transaction env st req
  (r, r.tasks.map (fun t => send_notification t o))

/-! ### Health endpoint (identical in both services) -/

/-- Body of the `/health` response (timestamp and the request-scoped uptime
float are not modelled; no claim depends on them). -/
structure HealthResponse where
  status : String
  version : String
  database : String
  redis : String

/-- `GET /health` (`health_check`): probes the database (`SELECT 1`) and the
cache (`ping`) independently, each probe's exception caught and rendered as
an "unhealthy: ..." string; overall status is "healthy" exactly when both
per-dependency strings equal "healthy", else "degraded"; the handler never
raises. -/
def health_check (dbOk : Bool) (dbErr : String) (redisOk : Bool) (redisErr : String) :
    HealthResponse :=
  let db_status := if dbOk then "healthy" else "unhealthy: " ++ dbErr
  let redis_status := if redisOk then "healthy" else "unhealthy: " ++ redisErr
  { status := if db_status = "healthy" ∧ redis_status = "healthy" then "healthy" else "degraded"
    version := "1.0.0"
    database := db_status
    redis := redis_status }

/-! ### Notification service (`src/docker/notification-service/main.py`) -/

/-- The `NotificationCreate` request model. -/
structure NotificationCreate where
  user_id : String
  type : String
  title : String
  message : String
  priority : String
  metadata : Option (List (String × Value))

/-- `allowed_types` of `validate_type`. -/
def notifAllowedTypes : List String :=
  ["transaction_created", "system_alert", "security_alert", "payment_confirmation", "general"]

/-- `allowed_priorities` of `validate_priority`. -/
def notifAllowedPriorities : List String := ["low", "normal", "high", "urgent"]

/-- Pydantic validation of `NotificationCreate`, in the model's field order:
`type` in its enumeration (`validate_type`), `title` at most 200 characters
(`max_length=200`), `priority` in its enumeration (`validate_priority`). -/
def validateNotificationCreate (r : NotificationCreate) : Except VError NotificationCreate :=
  if ¬ (r.type ∈ notifAllowedTypes) then .error .invalidType
  else if 200 < r.title.length then .error .titleTooLong
  else if ¬ (r.priority ∈ notifAllowedPriorities) then .error .invalidPriority
  else .ok r

/-- A row of the `notifications` table (timestamps are abstract instants;
the store-internal id and column-default creation time are omitted). -/
structure NotificationRec where
  notification_id : String
  user_id : String
  type : String
  title : String
  message : String
  status : String
  priority : String
  metadata : Option (List (String × Value))
  read_at : Option Nat
  updated_at : Option Nat
  is_active : Bool

/-- The `NotificationDB` row built by `create_notification` before the
insert (the metadata column is a native JSON column here, stored without
text encoding). -/
def mkNotificationRecord (newId : String) (v : NotificationCreate) : NotificationRec :=
  { notification_id := newId
    user_id := v.user_id
    type := v.type
    title := v.title
    message := v.message
    status := "unread"
    priority := v.priority
    metadata := v.metadata
    read_at := none
    updated_at := none
    is_active := true }

/-- Cached text of a created notification; abstracts
`str(db_notification.__dict__)`, never deserialized by any read path. -/
def cacheTextNotif (r : NotificationRec) : String := r.notification_id

/-- Store rows, cache entries and the two Prometheus counters the
notification write path touches. -/
structure NotifState where
  store : List NotificationRec
  cache : List (String × String)
  sent : Nat
  errors : Nat

/-- Outcomes of the external effects of one notification-creation request:
generated id, database commit, per-record cache `setex`, and the user-list
cache `expire`. -/
structure NotifEnv where
  newId : String
  dbOk : Bool
  cacheOk : Bool
  userCacheOk : Bool

/-- The dict handed to `asyncio.create_task(send_external_notification(...))`. -/
structure ExtTask where
  notification_id : String
  user_id : String
  type : String
  title : String
  message : String
  priority : String

/-- Result of one `POST /notify` request. -/
structure NotifResult where
  response : WriteOutcome NotificationRec VError
  state : NotifState
  tasks : List ExtTask

/-- `POST /notify` (`create_notification`): validation, id generation,
durable insert with status "unread", per-record cache `setex`, user-list
cache invalidation (`expire key 0`), counter updates, the background
external send, and the 201 response; any exception after validation is
caught by the generic handler, which increments the error counter and
returns a 500. -/
def create_notification (env : NotifEnv) (st : NotifState) (req : NotificationCreate) :
    NotifResult :=
  match validateNotificationCreate req with
  | .error e => { response := .validationError e, state := st, tasks := [] }
  | .ok v =>
    let row := mkNotificationRecord env.newId v
    if env.dbOk then
      let st1 : NotifState := { st with store := st.store ++ [row] }
      if env.cacheOk then
        let st2 : NotifState :=
          { st1 with cache := setKey st1.cache ("notification:" ++ env.newId) (cacheTextNotif row) }
        if env.userCacheOk then
          { response := .created row
            state := { st2 with
              cache := delKey st2.cache ("user_notifications:" ++ v.user_id)
              sent := st2.sent + 1 }
            tasks := [{ notification_id := env.newId, user_id := v.user_id, type := v.type,
                        title := v.title, message := v.message, priority := v.priority }] }
        else
          { response := .serverError
            state := { st2 with errors := st2.errors + 1 }
            tasks := [] }
      else
        { response := .serverError
          state := { st1 with errors := st1.errors + 1 }
          tasks := [] }
    else
      { response := .serverError
        state := { st with errors := st.errors + 1 }
        tasks := [] }

/-! ### Mark-as-read transition (notification service) -/

/-- Outcome of the mark-as-read endpoint: 200 with the updated row, 404, or
the generic 500. -/
inductive MarkOutcome where
  | ok : NotificationRec → MarkOutcome
  | notFound : MarkOutcome
  | serverError : MarkOutcome

/-- Outcomes of the external effects of one mark-as-read request: the
current time for the stamps, the UPDATE+commit, and the two cache deletes. -/
structure MarkEnv where
  now : Nat
  dbOk : Bool
  delRecOk : Bool
  delUserOk : Bool

/-- Result of one mark-as-read request. -/
structure MarkResult where
  response : MarkOutcome
  state : NotifState

/-- The row update performed by the SQL `SET` clause. -/
def readStamp (now : Nat) (r : NotificationRec) : NotificationRec :=
  { r with status := "read", read_at := some now, updated_at := some now }

/-- `PUT /notifications/.../read` (`mark_notification_as_read`): one UPDATE
sets status "read" and stamps `read_at`/`updated_at` on every active row
with the business id, RETURNING the row; no matching row → 404 raised
before the commit and before any cache access; on success the commit is
followed by deleting the per-record and the per-user cache keys, either
deletion's failure hitting the generic 500 handler (with the update already
committed and no error counter incremented by this endpoint). -/
def mark_notification_as_read (env : MarkEnv) (st : NotifState) (nid : String) : MarkResult :=
  if env.dbOk then
    match st.store.find? (fun r => r.notification_id == nid && r.is_active) with
    | none => { response := .notFound, state := st }
    | some r =>
      let st1 : NotifState :=
        { st with store := st.store.map (fun x =>
            if x.notification_id == nid && x.is_active then readStamp env.now x else x) }
      if env.delRecOk then
        let st2 : NotifState := { st1 with cache := delKey st1.cache ("notification:" ++ nid) }
        if env.delUserOk then
          { response := .ok (readStamp env.now r)
            state := { st2 with cache := delKey st2.cache ("user_notifications:" ++ r.user_id) } }
        else
          { response := .serverError, state := st2 }
      else
        { response := .serverError, state := st1 }
  else
    { response := .serverError, state := st }

/-! ### Round-trip of the metadata text encoding -/

theorem decDigit_facts : ∀ d, d < 10 → isDig (decDigit d) = true ∧ digVal (decDigit d) = d := by
  decide

theorem parseDigits_stop (a : Nat) (rest : List Char) (h : noDigitHead rest = true) :
    parseDigits a rest = (a, rest) := by
  cases rest with
  | nil => rfl
  | cons c cs =>
    simp only [noDigitHead, Bool.not_eq_true'] at h
    simp [parseDigits, h]

theorem toDecCore_parse (fuel : Nat) :
    ∀ n, n < fuel → ∀ rest, parseDigits 0 (toDecCore fuel n ++ rest) = parseDigits n rest := by
  induction fuel with
  | zero => intro n hn; omega
  | succ fuel ih =>
    intro n hn rest
    by_cases h10 : n < 10
    · simp only [toDecCore, if_pos h10, List.cons_append, List.nil_append]
      have hd := decDigit_facts n h10
      simp [parseDigits, hd.1, hd.2]
    · have hdivlt : n / 10 < n := Nat.div_lt_self (by omega) (by omega)
      simp only [toDecCore, if_neg h10, List.append_assoc, List.cons_append, List.nil_append]
      rw [ih (n / 10) (by omega) (decDigit (n % 10) :: rest)]
      have hd := decDigit_facts (n % 10) (by omega)
      simp only [parseDigits, hd.1, if_pos, hd.2]
      have hsum : n / 10 * 10 + n % 10 = n := by omega
      rw [hsum]

theorem toDec_parse (n : Nat) (rest : List Char) (h : noDigitHead rest = true) :
    parseDigits 0 (toDec n ++ rest) = (n, rest) := by
  rw [toDec, toDecCore_parse (n + 1) n (by omega) rest, parseDigits_stop n rest h]

theorem toDecCore_head (fuel : Nat) :
    ∀ n, n < fuel → ∃ c t, toDecCore fuel n = c :: t ∧ isDig c = true := by
  induction fuel with
  | zero => intro n hn; omega
  | succ fuel ih =>
    intro n hn
    by_cases h10 : n < 10
    · exact ⟨decDigit n, [], by simp [toDecCore, h10], (decDigit_facts n h10).1⟩
    · have hdivlt : n / 10 < n := Nat.div_lt_self (by omega) (by omega)
      obtain ⟨c, t, hct, hdig⟩ := ih (n / 10) (by omega)
      exact ⟨c, t ++ [decDigit (n % 10)], by simp [toDecCore, h10, hct], hdig⟩

theorem toDec_head (n : Nat) : ∃ c t, toDec n = c :: t ∧ isDig c = true :=
  toDecCore_head (n + 1) n (by omega)

theorem isDig_ne (c : Char) (h : isDig c = true) :
    c ≠ 'N' ∧ c ≠ 'T' ∧ c ≠ 'F' ∧ c ≠ '-' ∧ c ≠ ']' ∧ c ≠ rbChar ∧ c ≠ sqChar ∧ c ≠ dqChar := by
  refine ⟨?_, ?_, ?_, ?_, ?_, ?_, ?_, ?_⟩ <;>
    exact fun e => absurd (e ▸ h) (by decide)

theorem pyQuoteChar_cases (cs : List Char) :
    pyQuoteChar cs = sqChar ∨ pyQuoteChar cs = dqChar := by
  unfold pyQuoteChar
  split
  · exact Or.inr rfl
  · exact Or.inl rfl

theorem parseStrBody_step (q c : Char) (cs : List Char) :
    parseStrBody q (c :: cs) =
      if c = q then some ([], cs)
      else if c = bsChar then
        match cs with
        | [] => none
        | e :: cs' =>
          match unescChar e with
          | none => none
          | some r =>
            match parseStrBody q cs' with
            | none => none
            | some (s, rest) => some (r :: s, rest)
      else
        match parseStrBody q cs with
        | none => none
        | some (s, rest) => some (c :: s, rest) := by
  rw [parseStrBody.eq_def]

theorem parseStrBody_escape (q : Char) (hq : q = sqChar ∨ q = dqChar)
    (s : List Char) :
    ∀ rest : List Char, parseStrBody q (escapeStr q s ++ (q :: rest)) = some (s, rest) := by
  have hbq : ¬(bsChar = q) := by rcases hq with h | h <;> subst h <;> decide
  have hqb : ¬(q = bsChar) := by rcases hq with h | h <;> subst h <;> decide
  have huq : unescChar q = some q := by rcases hq with h | h <;> subst h <;> decide
  induction s with
  | nil =>
    intro rest
    show parseStrBody q (q :: rest) = some ([], rest)
    rw [parseStrBody_step, if_pos rfl]
  | cons c s ih =>
    intro rest
    show parseStrBody q ((escChar q c ++ escapeStr q s) ++ (q :: rest)) = some (c :: s, rest)
    rw [List.append_assoc]
    by_cases h1 : c = bsChar
    · subst h1
      have he : escChar q bsChar = [bsChar, bsChar] := by unfold escChar; rw [if_pos rfl]
      rw [he, List.cons_append, List.cons_append, List.nil_append, parseStrBody_step,
        if_neg hbq, if_pos rfl]
      show (match parseStrBody q (escapeStr q s ++ q :: rest) with
            | none => none
            | some (s0, r0) => some (bsChar :: s0, r0)) = some (bsChar :: s, rest)
      rw [ih rest]
    · by_cases h2 : c = q
      · rw [h2]
        have he : escChar q q = [bsChar, q] := by unfold escChar; rw [if_neg hqb, if_pos rfl]
        rw [he, List.cons_append, List.cons_append, List.nil_append, parseStrBody_step,
          if_neg hbq, if_pos rfl]
        show (match unescChar q with
              | none => none
              | some r =>
                match parseStrBody q (escapeStr q s ++ q :: rest) with
                | none => none
                | some (s0, r0) => some (r :: s0, r0)) = some (q :: s, rest)
        rw [huq, ih rest]
      · by_cases h3 : c = nlChar
        · subst h3
          have he : escChar q nlChar = [bsChar, 'n'] := by
            unfold escChar; rw [if_neg (by decide), if_neg h2, if_pos rfl]
          rw [he, List.cons_append, List.cons_append, List.nil_append, parseStrBody_step,
            if_neg hbq, if_pos rfl]
          show (match parseStrBody q (escapeStr q s ++ q :: rest) with
                | none => none
                | some (s0, r0) => some (nlChar :: s0, r0)) = some (nlChar :: s, rest)
          rw [ih rest]
        · by_cases h4 : c = crChar
          · subst h4
            have he : escChar q crChar = [bsChar, 'r'] := by
              unfold escChar; rw [if_neg (by decide), if_neg h2, if_neg (by decide), if_pos rfl]
            rw [he, List.cons_append, List.cons_append, List.nil_append, parseStrBody_step,
              if_neg hbq, if_pos rfl]
            show (match parseStrBody q (escapeStr q s ++ q :: rest) with
                  | none => none
                  | some (s0, r0) => some (crChar :: s0, r0)) = some (crChar :: s, rest)
            rw [ih rest]
          · by_cases h5 : c = tbChar
            · subst h5
              have he : escChar q tbChar = [bsChar, 't'] := by
                unfold escChar
                rw [if_neg (by decide), if_neg h2, if_neg (by decide), if_neg (by decide),
                  if_pos rfl]
              rw [he, List.cons_append, List.cons_append, List.nil_append, parseStrBody_step,
                if_neg hbq, if_pos rfl]
              show (match parseStrBody q (escapeStr q s ++ q :: rest) with
                    | none => none
                    | some (s0, r0) => some (tbChar :: s0, r0)) = some (tbChar :: s, rest)
              rw [ih rest]
            · have he : escChar q c = [c] := by
                unfold escChar; rw [if_neg h1, if_neg h2, if_neg h3, if_neg h4, if_neg h5]
              rw [he, List.cons_append, List.nil_append, parseStrBody_step, if_neg h2,
                if_neg h1]
              show (match parseStrBody q (escapeStr q s ++ q :: rest) with
                    | none => none
                    | some (s0, r0) => some (c :: s0, r0)) = some (c :: s, rest)
              rw [ih rest]

theorem parseV_dig (fuel : Nat) (c : Char) (cs' : List Char) (h : isDig c = true) :
    parseV (fuel + 1) (c :: cs') =
      some (.vInt ((parseDigits 0 (c :: cs')).1 : Int), (parseDigits 0 (c :: cs')).2) := by
  obtain ⟨hN, hT, hF, hDash, _, _, hsq, hdq⟩ := isDig_ne c h
  simp only [parseV, if_neg hN, if_neg hT, if_neg hF, if_neg hDash, if_pos h]

theorem parseV_dash (fuel : Nat) (d : Char) (cs' : List Char) (h : isDig d = true) :
    parseV (fuel + 1) ('-' :: d :: cs') =
      some (.vInt (-((parseDigits 0 (d :: cs')).1 : Int)), (parseDigits 0 (d :: cs')).2) := by
  simp only [parseV, if_neg (by decide : ¬('-' = 'N')), if_neg (by decide : ¬('-' = 'T')),
    if_neg (by decide : ¬('-' = 'F')), if_pos rfl, if_pos h, if_true, eq_self_iff_true,
    ite_true]

/-- The first character of a rendered value is never a list or dict closer. -/
theorem reprV_head (v : Value) :
    ∃ c t, reprV v = c :: t ∧ c ≠ ']' ∧ c ≠ rbChar := by
  cases v with
  | vNone => exact ⟨'N', _, rfl, by decide, by decide⟩
  | vBool b => cases b with
    | true => exact ⟨'T', _, rfl, by decide, by decide⟩
    | false => exact ⟨'F', _, rfl, by decide, by decide⟩
  | vInt n =>
    show ∃ c t, reprInt n = c :: t ∧ c ≠ ']' ∧ c ≠ rbChar
    by_cases hn : n < 0
    · exact ⟨'-', _, by rw [reprInt, if_pos hn], by decide, by decide⟩
    · obtain ⟨c, t, hct, hdig⟩ := toDec_head n.toNat
      obtain ⟨_, _, _, _, h5, h6, _, _⟩ := isDig_ne c hdig
      exact ⟨c, t, by rw [reprInt, if_neg hn, hct], h5, h6⟩
  | vStr s =>
    show ∃ c t, reprStrChars s.data = c :: t ∧ c ≠ ']' ∧ c ≠ rbChar
    rcases pyQuoteChar_cases s.data with h | h <;>
      exact ⟨pyQuoteChar s.data, _, rfl, by rw [h]; decide, by rw [h]; decide⟩
  | vList xs => exact ⟨'[', _, rfl, by decide, by decide⟩
  | vDict kvs => exact ⟨lbChar, _, rfl, by decide, by decide⟩

theorem parseV_noneTok (fuel : Nat) (r : List Char) :
    parseV (fuel + 1) ('N' :: 'o' :: 'n' :: 'e' :: r) = some (.vNone, r) := rfl

theorem parseV_trueTok (fuel : Nat) (r : List Char) :
    parseV (fuel + 1) ('T' :: 'r' :: 'u' :: 'e' :: r) = some (.vBool true, r) := rfl

theorem parseV_falseTok (fuel : Nat) (r : List Char) :
    parseV (fuel + 1) ('F' :: 'a' :: 'l' :: 's' :: 'e' :: r) = some (.vBool false, r) := rfl

theorem parseV_sq (fuel : Nat) (x : List Char) :
    parseV (fuel + 1) (sqChar :: x) =
      (match parseStrBody sqChar x with
       | none => none
       | some (s, rest) => some (.vStr (String.mk s), rest)) := rfl

theorem parseV_dq (fuel : Nat) (x : List Char) :
    parseV (fuel + 1) (dqChar :: x) =
      (match parseStrBody dqChar x with
       | none => none
       | some (s, rest) => some (.vStr (String.mk s), rest)) := rfl

theorem parseV_lbkt (fuel : Nat) (x : List Char) :
    parseV (fuel + 1) ('[' :: x) =
      (match parseElems fuel x with
       | none => none
       | some (xs, rest) => some (.vList xs, rest)) := rfl

theorem parseV_lbrace (fuel : Nat) (x : List Char) :
    parseV (fuel + 1) (lbChar :: x) =
      (match parseEntries fuel x with
       | none => none
       | some (kvs, rest) => some (.vDict kvs, rest)) := rfl

theorem parseElems_step (fuel : Nat) (c : Char) (cs : List Char) :
    parseElems (fuel + 1) (c :: cs) =
      (if c = ']' then some ([], cs)
       else
        match parseV fuel (c :: cs) with
        | none => none
        | some (v, cs1) =>
          match cs1 with
          | [] => none
          | c1 :: cs2 =>
            if c1 = ']' then some ([v], cs2)
            else if c1 = ',' then
              match cs2 with
              | ' ' :: cs3 =>
                match parseElems fuel cs3 with
                | none => none
                | some (vs, rest) => some (v :: vs, rest)
              | _ => none
            else none) := rfl

theorem parseEntries_sq (fuel : Nat) (x : List Char) :
    parseEntries (fuel + 1) (sqChar :: x) =
      (match parseStrBody sqChar x with
       | none => none
       | some (k, cs1) =>
         match cs1 with
         | ':' :: ' ' :: cs2 =>
           (match parseV fuel cs2 with
            | none => none
            | some (v, cs3) =>
              match cs3 with
              | [] => none
              | c3 :: cs4 =>
                if c3 = rbChar then some ([(String.mk k, v)], cs4)
                else if c3 = ',' then
                  match cs4 with
                  | ' ' :: cs5 =>
                    (match parseEntries fuel cs5 with
                     | none => none
                     | some (kvs, rest) => some ((String.mk k, v) :: kvs, rest))
                  | _ => none
                else none)
         | _ => none) := rfl

theorem parseEntries_dq (fuel : Nat) (x : List Char) :
    parseEntries (fuel + 1) (dqChar :: x) =
      (match parseStrBody dqChar x with
       | none => none
       | some (k, cs1) =>
         match cs1 with
         | ':' :: ' ' :: cs2 =>
           (match parseV fuel cs2 with
            | none => none
            | some (v, cs3) =>
              match cs3 with
              | [] => none
              | c3 :: cs4 =>
                if c3 = rbChar then some ([(String.mk k, v)], cs4)
                else if c3 = ',' then
                  match cs4 with
                  | ' ' :: cs5 =>
                    (match parseEntries fuel cs5 with
                     | none => none
                     | some (kvs, rest) => some ((String.mk k, v) :: kvs, rest))
                  | _ => none
                else none)
         | _ => none) := rfl

theorem parseEntries_key (fuel : Nat) (q : Char) (hq : q = sqChar ∨ q = dqChar)
    (kd : List Char) (R : List Char) :
    parseEntries (fuel + 1) (q :: (escapeStr q kd ++ (q :: (':' :: ' ' :: R)))) =
      (match parseV fuel R with
       | none => none
       | some (v, cs3) =>
         match cs3 with
         | [] => none
         | c3 :: cs4 =>
           if c3 = rbChar then some ([(String.mk kd, v)], cs4)
           else if c3 = ',' then
             match cs4 with
             | ' ' :: cs5 =>
               (match parseEntries fuel cs5 with
                | none => none
                | some (kvs, rest) => some ((String.mk kd, v) :: kvs, rest))
             | _ => none
           else none) := by
  rcases hq with h | h <;> subst h
  · rw [parseEntries_sq, parseStrBody_escape sqChar (Or.inl rfl) kd (':' :: ' ' :: R)]
    try rfl
  · rw [parseEntries_dq, parseStrBody_escape dqChar (Or.inr rfl) kd (':' :: ' ' :: R)]
    try rfl

theorem parseRound (fuel : Nat) :
    (∀ (v : Value) (rest : List Char), noDigitHead rest = true →
        2 * (reprV v ++ rest).length ≤ fuel →
        parseV fuel (reprV v ++ rest) = some (v, rest)) ∧
    (∀ (xs : List Value) (rest : List Char),
        2 * (reprElems xs ++ ']' :: rest).length + 1 ≤ fuel →
        parseElems fuel (reprElems xs ++ ']' :: rest) = some (xs, rest)) ∧
    (∀ (kvs : List (String × Value)) (rest : List Char),
        2 * (reprEntries kvs ++ rbChar :: rest).length + 1 ≤ fuel →
        parseEntries fuel (reprEntries kvs ++ rbChar :: rest) = some (kvs, rest)) := by
  induction fuel with
  | zero =>
    refine ⟨?_, ?_, ?_⟩
    · intro v rest _ hlen
      obtain ⟨c, t, hct, _, _⟩ := reprV_head v
      rw [hct] at hlen
      simp only [List.cons_append, List.length_cons, List.length_append] at hlen
      omega
    · intro xs rest hlen; omega
    · intro kvs rest hlen; omega
  | succ fuel ih =>
    obtain ⟨ihV, ihL, ihE⟩ := ih
    refine ⟨?_, ?_, ?_⟩
    · -- one value
      intro v rest hrd hlen
      cases v with
      | vNone =>
        simp only [reprV, List.cons_append, List.nil_append]
        exact parseV_noneTok fuel rest
      | vBool b =>
        cases b <;> simp only [reprV, List.cons_append, List.nil_append]
        · exact parseV_falseTok fuel rest
        · exact parseV_trueTok fuel rest
      | vInt n =>
        simp only [reprV]
        by_cases hn : n < 0
        · rw [reprInt, if_pos hn]
          obtain ⟨c, t, hct, hdig⟩ := toDec_head (-n).toNat
          rw [hct, List.cons_append, List.cons_append,
            parseV_dash fuel c (t ++ rest) hdig]
          have hp : parseDigits 0 (c :: (t ++ rest)) = ((-n).toNat, rest) := by
            have h2 := toDec_parse (-n).toNat rest hrd
            rw [hct, List.cons_append] at h2
            exact h2
          rw [hp]
          have h3 : (((-n).toNat : Int)) = -n := by omega
          rw [h3, neg_neg]
        · rw [reprInt, if_neg hn]
          obtain ⟨c, t, hct, hdig⟩ := toDec_head n.toNat
          rw [hct, List.cons_append, parseV_dig fuel c (t ++ rest) hdig]
          have hp : parseDigits 0 (c :: (t ++ rest)) = (n.toNat, rest) := by
            have h2 := toDec_parse n.toNat rest hrd
            rw [hct, List.cons_append] at h2
            exact h2
          rw [hp]
          have h3 : ((n.toNat : Int)) = n := by omega
          rw [h3]
      | vStr s =>
        obtain ⟨sd⟩ := s
        simp only [reprV]
        rcases pyQuoteChar_cases sd with hq | hq <;>
          rw [reprStrChars, hq, List.cons_append, List.append_assoc, List.singleton_append]
        · rw [parseV_sq, parseStrBody_escape sqChar (Or.inl rfl) sd rest]
        · rw [parseV_dq, parseStrBody_escape dqChar (Or.inr rfl) sd rest]
      | vList xs =>
        simp only [reprV] at hlen ⊢
        rw [List.cons_append, List.append_assoc, List.singleton_append, parseV_lbkt]
        rw [ihL xs rest ?hbl]
        case hbl =>
          simp only [List.cons_append, List.length_cons, List.length_append] at hlen ⊢
          omega
      | vDict kvs =>
        simp only [reprV] at hlen ⊢
        rw [List.cons_append, List.append_assoc, List.singleton_append, parseV_lbrace]
        rw [ihE kvs rest ?hbd]
        case hbd =>
          simp only [List.cons_append, List.length_cons, List.length_append] at hlen ⊢
          omega
    · -- list elements
      intro xs rest hlen
      match xs with
      | [] =>
        simp only [reprElems, List.nil_append]
        rfl
      | [v] =>
        simp only [reprElems] at hlen ⊢
        obtain ⟨c, t, hct, hc1, _⟩ := reprV_head v
        rw [hct, List.cons_append, parseElems_step, if_neg hc1, ← List.cons_append, ← hct]
        rw [ihV v (']' :: rest) rfl ?hb1]
        case hb1 =>
          simp only [List.length_append, List.length_cons] at hlen ⊢
          omega
        rfl
      | v :: v2 :: vs =>
        simp only [reprElems, List.append_assoc, List.cons_append] at hlen ⊢
        obtain ⟨c, t, hct, hc1, _⟩ := reprV_head v
        rw [hct, List.cons_append, parseElems_step, if_neg hc1, ← List.cons_append, ← hct]
        rw [ihV v (',' :: ' ' :: (reprElems (v2 :: vs) ++ ']' :: rest)) rfl ?hb2]
        case hb2 =>
          simp only [List.length_append, List.length_cons] at hlen ⊢
          omega
        show (match parseElems fuel (reprElems (v2 :: vs) ++ ']' :: rest) with
              | none => none
              | some (vs1, r1) => some (v :: vs1, r1)) = some (v :: v2 :: vs, rest)
        rw [ihL (v2 :: vs) rest ?hb3]
        case hb3 =>
          simp only [List.length_append, List.length_cons] at hlen ⊢
          omega
    · -- dict entries
      intro kvs rest hlen
      match kvs with
      | [] =>
        simp only [reprEntries, List.nil_append]
        rfl
      | [(k, v)] =>
        obtain ⟨kd⟩ := k
        simp only [reprEntries] at hlen ⊢
        rw [reprStrChars] at hlen
        simp only [List.length_append, List.length_cons] at hlen
        have hbv : 2 * (reprV v ++ rbChar :: rest).length ≤ fuel := by
          simp only [List.length_append, List.length_cons]
          omega
        rcases pyQuoteChar_cases kd with hq | hq
        · simp only [reprStrChars, hq, List.append_assoc, List.cons_append,
            List.singleton_append, List.nil_append]
          rw [parseEntries_key fuel sqChar (Or.inl rfl) kd (reprV v ++ rbChar :: rest),
            ihV v (rbChar :: rest) rfl hbv]
          rfl
        · simp only [reprStrChars, hq, List.append_assoc, List.cons_append,
            List.singleton_append, List.nil_append]
          rw [parseEntries_key fuel dqChar (Or.inr rfl) kd (reprV v ++ rbChar :: rest),
            ihV v (rbChar :: rest) rfl hbv]
          rfl
      | (k, v) :: kv2 :: kvt =>
        obtain ⟨kd⟩ := k
        simp only [reprEntries, List.append_assoc, List.cons_append] at hlen ⊢
        rw [reprStrChars] at hlen
        simp only [List.length_append, List.length_cons] at hlen
        have hbv : 2 * (reprV v ++
            ',' :: ' ' :: (reprEntries (kv2 :: kvt) ++ rbChar :: rest)).length ≤ fuel := by
          simp only [List.length_append, List.length_cons]
          omega
        have hbe : 2 * (reprEntries (kv2 :: kvt) ++ rbChar :: rest).length + 1 ≤ fuel := by
          simp only [List.length_append, List.length_cons]
          omega
        rcases pyQuoteChar_cases kd with hq | hq
        · simp only [reprStrChars, hq, List.append_assoc, List.cons_append,
            List.singleton_append, List.nil_append]
          rw [parseEntries_key fuel sqChar (Or.inl rfl) kd
              (reprV v ++ ',' :: ' ' :: (reprEntries (kv2 :: kvt) ++ rbChar :: rest)),
            ihV v (',' :: ' ' :: (reprEntries (kv2 :: kvt) ++ rbChar :: rest)) rfl hbv]
          show (match parseEntries fuel (reprEntries (kv2 :: kvt) ++ rbChar :: rest) with
                | none => none
                | some (kvs1, r1) => some ((String.mk kd, v) :: kvs1, r1)) =
               some ((String.mk kd, v) :: kv2 :: kvt, rest)
          rw [ihE (kv2 :: kvt) rest hbe]
        · simp only [reprStrChars, hq, List.append_assoc, List.cons_append,
            List.singleton_append, List.nil_append]
          rw [parseEntries_key fuel dqChar (Or.inr rfl) kd
              (reprV v ++ ',' :: ' ' :: (reprEntries (kv2 :: kvt) ++ rbChar :: rest)),
            ihV v (',' :: ' ' :: (reprEntries (kv2 :: kvt) ++ rbChar :: rest)) rfl hbv]
          show (match parseEntries fuel (reprEntries (kv2 :: kvt) ++ rbChar :: rest) with
                | none => none
                | some (kvs1, r1) => some ((String.mk kd, v) :: kvs1, r1)) =
               some ((String.mk kd, v) :: kv2 :: kvt, rest)
          rw [ihE (kv2 :: kvt) rest hbe]

/-- Python `eval` inverts `repr` on every metadata value. -/
theorem pyEvalValue_repr (v : Value) : pyEvalValue (String.mk (reprV v)) = some v := by
  have h := (parseRound (2 * (reprV v).length + 2)).1 v [] rfl ?hb
  case hb => rw [List.append_nil]; omega
  rw [List.append_nil] at h
  unfold pyEvalValue
  have hd : (String.mk (reprV v)).data = reprV v := rfl
  rw [hd, h]

/-- The stored text of a metadata dict decodes back to exactly that dict:
`eval(str(d)) == d` for the JSON-shaped dicts the services handle. -/
theorem pyEvalDict_repr (kvs : List (String × Value)) :
    pyEvalDict (pyReprDict kvs) = some kvs := by
  unfold pyEvalDict pyReprDict
  rw [pyEvalValue_repr (.vDict kvs)]
/-! ### Small facts about validation, cache and strings used by the claims -/

theorem validateTx_ok_shape (req v : TransactionCreate)
    (h : validateTransactionCreate req = .ok v) :
    v = { req with currency := pyUpper req.currency } := by
  unfold validateTransactionCreate at h
  split at h
  · cases h
  · split at h
    · cases h
    · split at h
      · cases h
      · cases h; rfl

theorem validateNotif_ok_shape (req v : NotificationCreate)
    (h : validateNotificationCreate req = .ok v) : v = req := by
  unfold validateNotificationCreate at h
  split at h
  · cases h
  · split at h
    · cases h
    · split at h
      · cases h
      · cases h; rfl

theorem unhealthy_ne_healthy (e : String) : ("unhealthy: " ++ e) ≠ "healthy" := by
  intro h
  have h2 := congrArg String.data h
  rw [String.data_append] at h2
  simp at h2

theorem lookupKey_delKey_self (c : List (String × String)) (k : String) :
    lookupKey (delKey c k) k = none := by
  induction c with
  | nil => rfl
  | cons p ps ih =>
    by_cases h : p.1 == k
    · simp only [delKey, List.filter_cons, h, Bool.not_true, if_neg]
      exact ih
    · simp only [Bool.not_eq_true] at h
      simp only [delKey, List.filter_cons, h, Bool.not_false, if_pos]
      simp only [lookupKey, List.find?_cons, h]
      exact ih

theorem delKey_comm (c : List (String × String)) (k1 k2 : String) :
    delKey (delKey c k1) k2 = delKey (delKey c k2) k1 := by
  unfold delKey
  rw [List.filter_filter, List.filter_filter]
  congr 1
  funext p
  rw [Bool.and_comm]

theorem find?_append_right {α : Type} (p : α → Bool) (l1 l2 : List α)
    (h : ∀ x ∈ l1, p x = false) :
    (l1 ++ l2).find? p = l2.find? p := by
  induction l1 with
  | nil => rfl
  | cons a l ih =>
    rw [List.cons_append, List.find?_cons, h a (by simp)]
    exact ih (fun x hx => h x (by simp [hx]))
/-! ### The claims -/

/-- C1: a creation request with a non-positive amount (transaction service)
or a type outside its fixed enumeration (either service) fails pydantic
validation with a client-error (422) outcome, and the handler performs no
store write and no cache write. -/
theorem C1_invalid_request_rejected_without_writes :
    (∀ (env : TxEnv) (st : TxState) (req : TransactionCreate),
        (¬ 0 < req.amount ∨ req.transaction_type ∉ txAllowedTypes) →
        ∃ e, create_transaction env st req =
            { response := .validationError e, state := st, tasks := [] } ∧
          WriteOutcome.statusCode
            (WriteOutcome.validationError e : WriteOutcome TransactionRec VError) = 422) ∧
    (∀ (env : NotifEnv) (st : NotifState) (req : NotificationCreate),
        req.type ∉ notifAllowedTypes →
        ∃ e, create_notification env st req =
            { response := .validationError e, state := st, tasks := [] } ∧
          WriteOutcome.statusCode
            (WriteOutcome.validationError e : WriteOutcome NotificationRec VError) = 422) := by
  constructor
  · intro env st req h
    unfold create_transaction validateTransactionCreate
    by_cases ha : ¬ 0 < req.amount
    · rw [if_pos ha]
      exact ⟨.invalidAmount, rfl, rfl⟩
    · rw [if_neg ha]
      have ht : req.transaction_type ∉ txAllowedTypes := by
        rcases h with h | h
        · exact absurd h ha
        · exact h
      by_cases hc : req.currency.length ≠ 3
      · rw [if_pos hc]
        exact ⟨.invalidCurrency, rfl, rfl⟩
      · rw [if_neg hc, if_pos ht]
        exact ⟨.invalidType, rfl, rfl⟩
  · intro env st req h
    unfold create_notification validateNotificationCreate
    rw [if_pos h]
    exact ⟨.invalidType, rfl, rfl⟩

theorem C1_witness :
    (∃ e, create_transaction ⟨"TXN1", true, true⟩ ⟨[], [], 0, 0⟩
          ⟨"u1", 0, "BRL", "credit", none, none⟩ =
        { response := .validationError e, state := ⟨[], [], 0, 0⟩, tasks := [] } ∧
      WriteOutcome.statusCode
        (WriteOutcome.validationError e : WriteOutcome TransactionRec VError) = 422) ∧
    (∃ e, create_notification ⟨"NOT1", true, true, true⟩ ⟨[], [], 0, 0⟩
          ⟨"u1", "bogus", "t", "m", "normal", none⟩ =
        { response := .validationError e, state := ⟨[], [], 0, 0⟩, tasks := [] } ∧
      WriteOutcome.statusCode
        (WriteOutcome.validationError e : WriteOutcome NotificationRec VError) = 422) :=
  ⟨C1_invalid_request_rejected_without_writes.1 ⟨"TXN1", true, true⟩ ⟨[], [], 0, 0⟩
      ⟨"u1", 0, "BRL", "credit", none, none⟩ (Or.inl (by decide)),
   C1_invalid_request_rejected_without_writes.2 ⟨"NOT1", true, true, true⟩ ⟨[], [], 0, 0⟩
      ⟨"u1", "bogus", "t", "m", "normal", none⟩ (by decide)⟩
/-- C2: when the durable write succeeds but the subsequent cache write
fails, the generic exception handler turns the request into a server-error
(500) response and increments the error counter, even though the record is
already persisted in the store. -/
theorem C2_cache_failure_after_persist_is_server_error :
    (∀ (env : TxEnv) (st : TxState) (req : TransactionCreate) (v : TransactionCreate),
        validateTransactionCreate req = .ok v →
        env.dbOk = true → env.cacheOk = false →
        (create_transaction env st req).response = .serverError ∧
        (create_transaction env st req).response.statusCode = 500 ∧
        (create_transaction env st req).state.errors = st.errors + 1 ∧
        mkTransactionRecord env.newId v ∈ (create_transaction env st req).state.store) ∧
    (∀ (env : NotifEnv) (st : NotifState) (req : NotificationCreate) (v : NotificationCreate),
        validateNotificationCreate req = .ok v →
        env.dbOk = true → (env.cacheOk = false ∨ env.userCacheOk = false) →
        (create_notification env st req).response = .serverError ∧
        (create_notification env st req).response.statusCode = 500 ∧
        (create_notification env st req).state.errors = st.errors + 1 ∧
        mkNotificationRecord env.newId v ∈ (create_notification env st req).state.store) := by
  constructor
  · intro env st req v hval hdb hcc
    unfold create_transaction
    rw [hval, hdb, hcc]
    refine ⟨rfl, rfl, rfl, ?_⟩
    simp
  · intro env st req v hval hdb hor
    unfold create_notification
    rw [hval, hdb]
    rcases hor with hc | hu
    · rw [hc]
      refine ⟨rfl, rfl, rfl, ?_⟩
      simp
    · cases hcase : env.cacheOk
      · refine ⟨rfl, rfl, rfl, ?_⟩
        simp
      · rw [hu]
        refine ⟨rfl, rfl, rfl, ?_⟩
        simp [setKey]

theorem C2_witness :
    (create_transaction ⟨"TXN1", true, false⟩ ⟨[], [], 0, 0⟩
        ⟨"u1", 100, "usd", "credit", none, none⟩).response = .serverError ∧
    (create_transaction ⟨"TXN1", true, false⟩ ⟨[], [], 0, 0⟩
        ⟨"u1", 100, "usd", "credit", none, none⟩).response.statusCode = 500 ∧
    (create_transaction ⟨"TXN1", true, false⟩ ⟨[], [], 0, 0⟩
        ⟨"u1", 100, "usd", "credit", none, none⟩).state.errors = 0 + 1 ∧
    mkTransactionRecord "TXN1" ⟨"u1", 100, "USD", "credit", none, none⟩ ∈
      (create_transaction ⟨"TXN1", true, false⟩ ⟨[], [], 0, 0⟩
        ⟨"u1", 100, "usd", "credit", none, none⟩).state.store :=
  C2_cache_failure_after_persist_is_server_error.1 ⟨"TXN1", true, false⟩ ⟨[], [], 0, 0⟩
    ⟨"u1", 100, "usd", "credit", none, none⟩ ⟨"u1", 100, "USD", "credit", none, none⟩
    rfl rfl rfl

/-- C3: when the durable write fails, the handler increments the error
counter, returns a server-error (500) response, and leaves both store and
cache untouched; and whenever the durable write happens, the persisted row
carries the initial status, "pending" for transactions and "unread" for
notifications. -/
theorem C3_store_failure_leaves_no_cached_state :
    (∀ (env : TxEnv) (st : TxState) (req : TransactionCreate) (v : TransactionCreate),
        validateTransactionCreate req = .ok v →
        (env.dbOk = false →
          create_transaction env st req =
            { response := .serverError,
              state := { st with errors := st.errors + 1 }, tasks := [] } ∧
          (create_transaction env st req).state.cache = st.cache ∧
          (create_transaction env st req).state.store = st.store) ∧
        (env.dbOk = true →
          (create_transaction env st req).state.store =
            st.store ++ [mkTransactionRecord env.newId v]) ∧
        (mkTransactionRecord env.newId v).status = "pending") ∧
    (∀ (env : NotifEnv) (st : NotifState) (req : NotificationCreate) (v : NotificationCreate),
        validateNotificationCreate req = .ok v →
        (env.dbOk = false →
          create_notification env st req =
            { response := .serverError,
              state := { st with errors := st.errors + 1 }, tasks := [] } ∧
          (create_notification env st req).state.cache = st.cache ∧
          (create_notification env st req).state.store = st.store) ∧
        (env.dbOk = true →
          (create_notification env st req).state.store =
            st.store ++ [mkNotificationRecord env.newId v]) ∧
        (mkNotificationRecord env.newId v).status = "unread") := by
  constructor
  · intro env st req v hval
    refine ⟨?_, ?_, rfl⟩
    · intro hdb
      unfold create_transaction
      rw [hval, hdb]
      exact ⟨rfl, rfl, rfl⟩
    · intro hdb
      unfold create_transaction
      rw [hval, hdb]
      cases hcc : env.cacheOk
      · rfl
      · rfl
  · intro env st req v hval
    refine ⟨?_, ?_, rfl⟩
    · intro hdb
      unfold create_notification
      rw [hval, hdb]
      exact ⟨rfl, rfl, rfl⟩
    · intro hdb
      unfold create_notification
      rw [hval, hdb]
      cases hcc : env.cacheOk
      · rfl
      · cases huc : env.userCacheOk
        · rfl
        · rfl

theorem C3_witness :
    ((⟨"TXN1", false, true⟩ : TxEnv).dbOk = false →
      create_transaction ⟨"TXN1", false, true⟩ ⟨[], [], 0, 0⟩
          ⟨"u1", 100, "usd", "credit", none, none⟩ =
        { response := .serverError,
          state := { (⟨[], [], 0, 0⟩ : TxState) with errors := 0 + 1 }, tasks := [] } ∧
      (create_transaction ⟨"TXN1", false, true⟩ ⟨[], [], 0, 0⟩
          ⟨"u1", 100, "usd", "credit", none, none⟩).state.cache = [] ∧
      (create_transaction ⟨"TXN1", false, true⟩ ⟨[], [], 0, 0⟩
          ⟨"u1", 100, "usd", "credit", none, none⟩).state.store = []) ∧
    ((⟨"TXN1", false, true⟩ : TxEnv).dbOk = true →
      (create_transaction ⟨"TXN1", false, true⟩ ⟨[], [], 0, 0⟩
          ⟨"u1", 100, "usd", "credit", none, none⟩).state.store =
        [] ++ [mkTransactionRecord "TXN1" ⟨"u1", 100, "USD", "credit", none, none⟩]) ∧
    (mkTransactionRecord "TXN1" ⟨"u1", 100, "USD", "credit", none, none⟩).status = "pending" :=
  C3_store_failure_leaves_no_cached_state.1 ⟨"TXN1", false, true⟩ ⟨[], [], 0, 0⟩
    ⟨"u1", 100, "usd", "credit", none, none⟩ ⟨"u1", 100, "USD", "credit", none, none⟩ rfl
/-- C4: every successful transaction creation schedules exactly one POST to
the notification endpoint, whose body has type "transaction_created" and
whose metadata carries the original transaction id; and for every outcome
of that POST the client-visible result is the same 201 with the created
row. -/
theorem C4_exactly_one_detached_notification :
    ∀ (env : TxEnv) (st : TxState) (req : TransactionCreate) (v : TransactionCreate),
      validateTransactionCreate req = .ok v →
      env.dbOk = true → env.cacheOk = true →
      (create_transaction env st req).tasks = [mkTxSummary env.newId v] ∧
      (∀ o : PostOutcome,
        (send_notification (mkTxSummary env.newId v) o).1.type = "transaction_created" ∧
        (send_notification (mkTxSummary env.newId v) o).1.metadata.transaction_id = env.newId) ∧
      (∀ o : PostOutcome,
        (runCreateThenNotify env st req o).1.response =
          .created (mkTransactionRecord env.newId v) ∧
        (runCreateThenNotify env st req o).1.response.statusCode = 201) := by
  intro env st req v hval hdb hcc
  have hcre : create_transaction env st req =
      { response := .created (mkTransactionRecord env.newId v),
        state := { store := st.store ++ [mkTransactionRecord env.newId v],
                   cache := setKey st.cache ("transaction:" ++ env.newId)
                              (cacheTextTx (mkTransactionRecord env.newId v)),
                   created := st.created + 1, errors := st.errors },
        tasks := [mkTxSummary env.newId v] } := by
    unfold create_transaction
    rw [hval, hdb, hcc]
    rfl
  refine ⟨by rw [hcre], fun o => ⟨rfl, rfl⟩, fun o => ?_⟩
  unfold runCreateThenNotify
  rw [hcre]
  exact ⟨rfl, rfl⟩

theorem C4_witness :
    (create_transaction ⟨"TXN1", true, true⟩ ⟨[], [], 0, 0⟩
        ⟨"u1", 100, "usd", "credit", none, none⟩).tasks =
      [mkTxSummary "TXN1" ⟨"u1", 100, "USD", "credit", none, none⟩] ∧
    (∀ o : PostOutcome,
      (send_notification (mkTxSummary "TXN1" ⟨"u1", 100, "USD", "credit", none, none⟩) o).1.type =
        "transaction_created" ∧
      (send_notification (mkTxSummary "TXN1"
          ⟨"u1", 100, "USD", "credit", none, none⟩) o).1.metadata.transaction_id = "TXN1") ∧
    (∀ o : PostOutcome,
      (runCreateThenNotify ⟨"TXN1", true, true⟩ ⟨[], [], 0, 0⟩
          ⟨"u1", 100, "usd", "credit", none, none⟩ o).1.response =
        .created (mkTransactionRecord "TXN1" ⟨"u1", 100, "USD", "credit", none, none⟩) ∧
      (runCreateThenNotify ⟨"TXN1", true, true⟩ ⟨[], [], 0, 0⟩
          ⟨"u1", 100, "usd", "credit", none, none⟩ o).1.response.statusCode = 201) :=
  C4_exactly_one_detached_notification ⟨"TXN1", true, true⟩ ⟨[], [], 0, 0⟩
    ⟨"u1", 100, "usd", "credit", none, none⟩ ⟨"u1", 100, "USD", "credit", none, none⟩
    rfl rfl rfl

/-- C8: a transaction request whose currency is not exactly 3 characters
fails validation; for every accepted request, the validated, stored and
returned currency equals the upper-cased input. -/
theorem C8_currency_length_and_uppercase :
    (∀ req : TransactionCreate, req.currency.length ≠ 3 →
        ∃ e, validateTransactionCreate req = .error e) ∧
    (∀ (env : TxEnv) (st : TxState) (req : TransactionCreate) (v : TransactionCreate),
        validateTransactionCreate req = .ok v →
        v.currency = pyUpper req.currency ∧
        (mkTransactionRecord env.newId v).currency = pyUpper req.currency ∧
        (env.dbOk = true → env.cacheOk = true →
          (create_transaction env st req).response =
            .created (mkTransactionRecord env.newId v) ∧
          (create_transaction env st req).state.store =
            st.store ++ [mkTransactionRecord env.newId v])) := by
  constructor
  · intro req h
    unfold validateTransactionCreate
    by_cases ha : ¬ 0 < req.amount
    · rw [if_pos ha]
      exact ⟨.invalidAmount, rfl⟩
    · rw [if_neg ha, if_pos h]
      exact ⟨.invalidCurrency, rfl⟩
  · intro env st req v hval
    have hv := validateTx_ok_shape req v hval
    subst hv
    refine ⟨rfl, rfl, fun hdb hcc => ?_⟩
    unfold create_transaction
    rw [hval, hdb, hcc]
    exact ⟨rfl, rfl⟩

theorem C8_witness :
    (∃ e, validateTransactionCreate ⟨"u1", 100, "USDX", "credit", none, none⟩ = .error e) ∧
    ((⟨"u1", 100, "USD", "credit", none, none⟩ : TransactionCreate).currency =
        pyUpper "usd" ∧
      (mkTransactionRecord "TXN1" ⟨"u1", 100, "USD", "credit", none, none⟩).currency =
        pyUpper "usd" ∧
      ((⟨"TXN1", true, true⟩ : TxEnv).dbOk = true →
        (⟨"TXN1", true, true⟩ : TxEnv).cacheOk = true →
        (create_transaction ⟨"TXN1", true, true⟩ ⟨[], [], 0, 0⟩
            ⟨"u1", 100, "usd", "credit", none, none⟩).response =
          .created (mkTransactionRecord "TXN1" ⟨"u1", 100, "USD", "credit", none, none⟩) ∧
        (create_transaction ⟨"TXN1", true, true⟩ ⟨[], [], 0, 0⟩
            ⟨"u1", 100, "usd", "credit", none, none⟩).state.store =
          [] ++ [mkTransactionRecord "TXN1" ⟨"u1", 100, "USD", "credit", none, none⟩])) :=
  ⟨C8_currency_length_and_uppercase.1 ⟨"u1", 100, "USDX", "credit", none, none⟩ (by decide),
   C8_currency_length_and_uppercase.2 ⟨"TXN1", true, true⟩ ⟨[], [], 0, 0⟩
     ⟨"u1", 100, "usd", "credit", none, none⟩ ⟨"u1", 100, "USD", "credit", none, none⟩ rfl⟩
/-- C9: the health endpoint reports overall "healthy" exactly when both the
store probe and the cache ping succeed, and "degraded" otherwise, with
per-dependency status strings; a failing probe is rendered as data (an
"unhealthy: ..." string), never propagated — the handler is a total
function of the two probe outcomes. -/
theorem C9_health_is_healthy_iff_both_probes_succeed :
    ∀ (dbOk redisOk : Bool) (dbErr redisErr : String),
      ((health_check dbOk dbErr redisOk redisErr).status = "healthy" ↔
        dbOk = true ∧ redisOk = true) ∧
      ((health_check dbOk dbErr redisOk redisErr).status = "degraded" ↔
        ¬(dbOk = true ∧ redisOk = true)) ∧
      (dbOk = true → (health_check dbOk dbErr redisOk redisErr).database = "healthy") ∧
      (dbOk = false →
        (health_check dbOk dbErr redisOk redisErr).database = "unhealthy: " ++ dbErr) ∧
      (redisOk = true → (health_check dbOk dbErr redisOk redisErr).redis = "healthy") ∧
      (redisOk = false →
        (health_check dbOk dbErr redisOk redisErr).redis = "unhealthy: " ++ redisErr) := by
  intro dbOk redisOk dbErr redisErr
  cases dbOk
  · have hne := unhealthy_ne_healthy dbErr
    have hst : (health_check false dbErr redisOk redisErr).status = "degraded" := by
      show (if ("unhealthy: " ++ dbErr = "healthy") ∧
            ((if redisOk = true then "healthy" else "unhealthy: " ++ redisErr) = "healthy")
          then "healthy" else "degraded") = "degraded"
      exact if_neg (not_and_of_not_left _ hne)
    rw [hst]
    refine ⟨⟨fun h => absurd h (by decide), fun h => absurd h.1 (by decide)⟩,
      ⟨fun _ => fun h => absurd h.1 (by decide), fun _ => rfl⟩,
      fun h => absurd h (by decide), fun _ => rfl, fun hr => ?_, fun hr => ?_⟩
    · unfold health_check
      rw [hr]
      rfl
    · unfold health_check
      rw [hr]
      rfl
  · cases redisOk
    · have hne := unhealthy_ne_healthy redisErr
      have hst : (health_check true dbErr false redisErr).status = "degraded" := by
        show (if ("healthy" = "healthy") ∧ ("unhealthy: " ++ redisErr = "healthy")
            then "healthy" else "degraded") = "degraded"
        exact if_neg (not_and_of_not_right _ hne)
      rw [hst]
      refine ⟨⟨fun h => absurd h (by decide), fun h => absurd h.2 (by decide)⟩,
        ⟨fun _ => fun h => absurd h.2 (by decide), fun _ => rfl⟩,
        fun _ => rfl, fun h => absurd h (by decide), fun hr => absurd hr (by decide),
        fun _ => rfl⟩
    · have hst : (health_check true dbErr true redisErr).status = "healthy" := by
        show (if ("healthy" = "healthy") ∧ ("healthy" = "healthy")
            then "healthy" else "degraded") = "healthy"
        exact if_pos ⟨rfl, rfl⟩
      rw [hst]
      refine ⟨⟨fun _ => ⟨rfl, rfl⟩, fun _ => rfl⟩,
        ⟨fun h => absurd h (by decide), fun h => absurd (⟨rfl, rfl⟩ : true = true ∧ true = true) h⟩,
        fun _ => rfl, fun h => absurd h (by decide), fun _ => rfl,
        fun h => absurd h (by decide)⟩

theorem C9_witness :
    (((health_check true "" false "boom").status = "healthy" ↔
        true = true ∧ false = true) ∧
      ((health_check true "" false "boom").status = "degraded" ↔
        ¬(true = true ∧ false = true)) ∧
      (true = true → (health_check true "" false "boom").database = "healthy") ∧
      (true = false → (health_check true "" false "boom").database = "unhealthy: " ++ "") ∧
      (false = true → (health_check true "" false "boom").redis = "healthy") ∧
      (false = false →
        (health_check true "" false "boom").redis = "unhealthy: " ++ "boom")) :=
  C9_health_is_healthy_iff_both_probes_succeed true false "" "boom"

/-- C10: the notifier counts as success only an HTTP 200, but the
notification service's creation endpoint answers 201 on success, so every
successfully created downstream notification is logged as a send failure
("Falha ao enviar notificação"). -/
theorem C10_notifier_logs_success_as_failure :
    ∀ (t : TxSummary) (c : Nat) (env : NotifEnv) (st : NotifState)
      (req : NotificationCreate) (v : NotificationCreate),
      c ≠ 200 →
      validateNotificationCreate req = .ok v →
      env.dbOk = true → env.cacheOk = true → env.userCacheOk = true →
      (send_notification t (.response c)).2 = .sendFailed c ∧
      (create_notification env st req).response.statusCode = 201 ∧
      (send_notification t
          (.response ((create_notification env st req).response.statusCode))).2 =
        .sendFailed 201 ∧
      SendLog.sendFailed 201 ≠ SendLog.sentOk := by
  intro t c env st req v hc hval hdb hcc huc
  have hcode : (create_notification env st req).response.statusCode = 201 := by
    unfold create_notification
    rw [hval, hdb, hcc, huc]
    rfl
  refine ⟨?_, hcode, ?_, by simp⟩
  · unfold send_notification
    simp [hc]
  · rw [hcode]
    unfold send_notification
    simp

theorem C10_witness :
    (send_notification ⟨"TXN1", "u1", 100, "USD", "credit"⟩ (.response 201)).2 =
      .sendFailed 201 ∧
    (create_notification ⟨"NOT1", true, true, true⟩ ⟨[], [], 0, 0⟩
        ⟨"u1", "transaction_created", "t", "m", "normal", none⟩).response.statusCode = 201 ∧
    (send_notification ⟨"TXN1", "u1", 100, "USD", "credit"⟩
        (.response ((create_notification ⟨"NOT1", true, true, true⟩ ⟨[], [], 0, 0⟩
          ⟨"u1", "transaction_created", "t", "m", "normal", none⟩).response.statusCode))).2 =
      .sendFailed 201 ∧
    SendLog.sendFailed 201 ≠ SendLog.sentOk :=
  C10_notifier_logs_success_as_failure ⟨"TXN1", "u1", 100, "USD", "credit"⟩ 201
    ⟨"NOT1", true, true, true⟩ ⟨[], [], 0, 0⟩
    ⟨"u1", "transaction_created", "t", "m", "normal", none⟩
    ⟨"u1", "transaction_created", "t", "m", "normal", none⟩
    (by decide) rfl rfl rfl rfl

/-- C7: when no active notification row matches the business identifier,
mark-as-read answers 404 (NotFoundError) and neither store nor cache is
touched — in particular no cache key is invalidated. -/
theorem C7_mark_as_read_not_found_no_invalidation :
    ∀ (env : MarkEnv) (st : NotifState) (nid : String),
      env.dbOk = true →
      st.store.find? (fun r => r.notification_id == nid && r.is_active) = none →
      mark_notification_as_read env st nid = { response := .notFound, state := st } ∧
      (mark_notification_as_read env st nid).state.cache = st.cache := by
  intro env st nid hdb hfind
  unfold mark_notification_as_read
  rw [hdb, hfind]
  exact ⟨rfl, rfl⟩

theorem C7_witness :
    mark_notification_as_read ⟨5, true, true, true⟩ ⟨[], [], 0, 0⟩ "NOTX" =
      { response := .notFound, state := ⟨[], [], 0, 0⟩ } ∧
    (mark_notification_as_read ⟨5, true, true, true⟩ ⟨[], [], 0, 0⟩ "NOTX").state.cache = [] :=
  C7_mark_as_read_not_found_no_invalidation ⟨5, true, true, true⟩ ⟨[], [], 0, 0⟩ "NOTX" rfl rfl
/-- C6: for a stored active notification in a non-terminal state,
mark-as-read answers 200 with the row transitioned to status "read", a
non-null read timestamp and an update timestamp; afterwards neither the
per-record cache key nor the per-user list cache key is present, and every
matching active row in the store carries the new status and stamp. -/
theorem C6_mark_as_read_transitions_and_invalidates :
    ∀ (env : MarkEnv) (st : NotifState) (nid : String) (r : NotificationRec),
      env.dbOk = true → env.delRecOk = true → env.delUserOk = true →
      st.store.find? (fun x => x.notification_id == nid && x.is_active) = some r →
      r.status ≠ "archived" →
      (mark_notification_as_read env st nid).response = .ok (readStamp env.now r) ∧
      (readStamp env.now r).status = "read" ∧
      (readStamp env.now r).read_at = some env.now ∧
      (readStamp env.now r).read_at.isSome = true ∧
      (readStamp env.now r).updated_at = some env.now ∧
      lookupKey (mark_notification_as_read env st nid).state.cache
        ("notification:" ++ nid) = none ∧
      lookupKey (mark_notification_as_read env st nid).state.cache
        ("user_notifications:" ++ r.user_id) = none ∧
      (∀ x ∈ (mark_notification_as_read env st nid).state.store,
        (x.notification_id == nid && x.is_active) = true →
        x.status = "read" ∧ x.read_at = some env.now ∧ x.updated_at = some env.now) := by
  intro env st nid r hdb hd1 hd2 hfind hstat
  have hm : mark_notification_as_read env st nid =
      { response := .ok (readStamp env.now r),
        state :=
          { store :=
              st.store.map
                (fun x =>
                  if x.notification_id == nid && x.is_active then readStamp env.now x else x)
            cache :=
              delKey (delKey st.cache ("notification:" ++ nid))
                ("user_notifications:" ++ r.user_id)
            sent := st.sent
            errors := st.errors } } := by
    unfold mark_notification_as_read
    rw [hdb, hfind, hd1, hd2]
    rfl
  rw [hm]
  refine ⟨rfl, rfl, rfl, rfl, rfl, ?_, ?_, ?_⟩
  · rw [delKey_comm]
    exact lookupKey_delKey_self _ _
  · exact lookupKey_delKey_self _ _
  · intro x hx hmatch
    rw [List.mem_map] at hx
    obtain ⟨a, _, rfl⟩ := hx
    by_cases hp : (a.notification_id == nid && a.is_active) = true
    · rw [if_pos hp]
      exact ⟨rfl, rfl, rfl⟩
    · rw [if_neg hp] at hmatch ⊢
      exact absurd hmatch hp

theorem C6_witness :
    (mark_notification_as_read ⟨5, true, true, true⟩
        ⟨[⟨"NOT1", "u1", "general", "t", "m", "unread", "normal", none, none, none, true⟩],
         [("notification:NOT1", "x"), ("user_notifications:u1", "y")], 0, 0⟩ "NOT1").response =
      .ok (readStamp 5
        ⟨"NOT1", "u1", "general", "t", "m", "unread", "normal", none, none, none, true⟩) ∧
    (readStamp 5
        ⟨"NOT1", "u1", "general", "t", "m", "unread", "normal", none, none, none, true⟩).status =
      "read" ∧
    (readStamp 5
        ⟨"NOT1", "u1", "general", "t", "m", "unread", "normal", none, none, none, true⟩).read_at =
      some 5 ∧
    (readStamp 5
        ⟨"NOT1", "u1", "general", "t", "m", "unread", "normal", none, none, none,
          true⟩).read_at.isSome = true ∧
    (readStamp 5
        ⟨"NOT1", "u1", "general", "t", "m", "unread", "normal", none, none, none,
          true⟩).updated_at = some 5 ∧
    lookupKey (mark_notification_as_read ⟨5, true, true, true⟩
        ⟨[⟨"NOT1", "u1", "general", "t", "m", "unread", "normal", none, none, none, true⟩],
         [("notification:NOT1", "x"), ("user_notifications:u1", "y")], 0, 0⟩
        "NOT1").state.cache ("notification:" ++ "NOT1") = none ∧
    lookupKey (mark_notification_as_read ⟨5, true, true, true⟩
        ⟨[⟨"NOT1", "u1", "general", "t", "m", "unread", "normal", none, none, none, true⟩],
         [("notification:NOT1", "x"), ("user_notifications:u1", "y")], 0, 0⟩
        "NOT1").state.cache ("user_notifications:" ++ "u1") = none ∧
    (∀ x ∈ (mark_notification_as_read ⟨5, true, true, true⟩
        ⟨[⟨"NOT1", "u1", "general", "t", "m", "unread", "normal", none, none, none, true⟩],
         [("notification:NOT1", "x"), ("user_notifications:u1", "y")], 0, 0⟩
        "NOT1").state.store,
      (x.notification_id == "NOT1" && x.is_active) = true →
      x.status = "read" ∧ x.read_at = some 5 ∧ x.updated_at = some 5) :=
  C6_mark_as_read_transitions_and_invalidates ⟨5, true, true, true⟩
    ⟨[⟨"NOT1", "u1", "general", "t", "m", "unread", "normal", none, none, none, true⟩],
     [("notification:NOT1", "x"), ("user_notifications:u1", "y")], 0, 0⟩ "NOT1"
    ⟨"NOT1", "u1", "general", "t", "m", "unread", "normal", none, none, none, true⟩
    rfl rfl rfl rfl (by simp)
/-- C5 (counterexample): submitting an empty metadata dict is not
round-tripped — `str(metadata) if metadata else None` treats the empty dict
as falsy, stores NULL, and the read-back returns `None` instead of the
submitted empty dict. -/
theorem C5_counterexample_empty_dict_metadata :
    getOutcomeMeta (get_transaction (create_transaction ⟨"TXN1", true, true⟩ ⟨[], [], 0, 0⟩
        ⟨"u1", 1, "BRL", "credit", none, some []⟩).state "TXN1") = some none ∧
    (⟨"u1", 1, "BRL", "credit", none, some []⟩ : TransactionCreate).metadata = some [] ∧
    (some ([] : List (String × Value)) ≠ (none : Option (List (String × Value)))) :=
  ⟨rfl, rfl, by simp⟩

/-- C5 (amended): for every valid creation request whose metadata is not the
empty dict, storing the record and reading it back by its fresh business id
(bypassing the cache) returns exactly the submitted fields — user id,
amount, type, description, upper-cased currency — with status "pending" and
the structured metadata reconstructed losslessly from the stored text. -/
theorem C5_create_then_read_roundtrip :
    ∀ (env : TxEnv) (st : TxState) (req : TransactionCreate) (v : TransactionCreate),
      validateTransactionCreate req = .ok v →
      env.dbOk = true → env.cacheOk = true →
      (∀ x ∈ st.store, x.transaction_id ≠ env.newId) →
      req.metadata ≠ some [] →
      get_transaction (create_transaction env st req).state env.newId =
        .found { transaction_id := env.newId, user_id := req.user_id, amount := req.amount,
                 currency := pyUpper req.currency, transaction_type := req.transaction_type,
                 status := "pending", description := req.description,
                 metadata := req.metadata } := by
  intro env st req v hval hdb hcc hfresh hmeta
  have hv := validateTx_ok_shape req v hval
  subst hv
  have hcre : (create_transaction env st req).state.store =
      st.store ++ [mkTransactionRecord env.newId { req with currency := pyUpper req.currency }] := by
    unfold create_transaction
    rw [hval, hdb, hcc]
    rfl
  have hfresh' : ∀ x ∈ st.store,
      ((fun x => x.transaction_id == env.newId && x.is_active) x) = false := by
    intro x hx
    have hne := hfresh x hx
    simp [hne]
  have hfind : (create_transaction env st req).state.store.find?
      (fun x => x.transaction_id == env.newId && x.is_active) =
      some (mkTransactionRecord env.newId { req with currency := pyUpper req.currency }) := by
    rw [hcre, find?_append_right _ st.store _ hfresh']
    simp [List.find?, mkTransactionRecord]
  cases hm : req.metadata with
  | none =>
    simp only [get_transaction, hfind, mkTransactionRecord, encodeTxMeta, hm]
  | some kvs =>
    have hkvs : kvs ≠ [] := by
      intro h
      exact hmeta (by rw [hm, h])
    obtain ⟨a, t, rfl⟩ : ∃ a t, kvs = a :: t := by
      cases kvs with
      | nil => exact absurd rfl hkvs
      | cons a t => exact ⟨a, t, rfl⟩
    have henc : encodeTxMeta (some (a :: t)) = some (pyReprDict (a :: t)) := rfl
    have hdata : (pyReprDict (a :: t)).data = lbChar :: (reprEntries (a :: t) ++ [rbChar]) := by
      unfold pyReprDict
      rw [show reprV (Value.vDict (a :: t)) = lbChar :: (reprEntries (a :: t) ++ [rbChar]) from
        by simp [reprV]]
    have hemp : (pyReprDict (a :: t)).data.isEmpty = false := by rw [hdata]; rfl
    simp only [get_transaction, hfind, mkTransactionRecord, encodeTxMeta, hm,
      List.isEmpty_cons, hemp, Bool.false_eq_true, if_false, pyEvalDict_repr]
theorem C5_witness :
    get_transaction (create_transaction ⟨"TXN1", true, true⟩ ⟨[], [], 0, 0⟩
        ⟨"u1", 100, "usd", "credit", some "d", some [("k", .vInt 7)]⟩).state "TXN1" =
      .found { transaction_id := "TXN1", user_id := "u1", amount := 100,
               currency := pyUpper "usd", transaction_type := "credit",
               status := "pending", description := some "d",
               metadata := some [("k", .vInt 7)] } :=
  C5_create_then_read_roundtrip ⟨"TXN1", true, true⟩ ⟨[], [], 0, 0⟩
    ⟨"u1", 100, "usd", "credit", some "d", some [("k", .vInt 7)]⟩
    ⟨"u1", 100, "USD", "credit", some "d", some [("k", .vInt 7)]⟩
    rfl rfl rfl (by simp) (by simp)
